import Mathlib

/-!
Verification of the crawl-and-cache engine of `ny_regulations_scraper.py`.

The scraper's core (page cache, fetcher with retries and backoff, link
extractor, crawl state, frontier scheduler) is shallow-embedded below.
Stateful Python code becomes explicit state passing over `ScraperState`;
external effects (the HTTP session, BeautifulSoup parsing, `urljoin`, and the
Content Extractor heuristics, which the specification treats as opaque
collaborator boundaries) are parameters of a `World` record.  Durations of
`time.sleep` calls are recorded in milliseconds (Python sleeps 0.5 s between
crawled pages, `2 ** attempt` seconds for backoff, and 1 s between retries).
The on-disk page cache keyed by `md5(url)` is modelled as an association list
keyed by the URL itself (the spec assumes no hash collisions), and the two
progress files are modelled as the `savedVisited` / `savedTotal` /
`savedFailed` fields of the state.  Network requests and sleeps are logged in
an event trace so that claims about request counts and backoff delays can be
stated.
-/

/-- Substring test on character lists: `pat` is a prefix of `l`. -/
def isPrefixL : List Char → List Char → Bool
  | [], _ => true
  | _ :: _, [] => false
  | a :: as, b :: bs => a == b && isPrefixL as bs

/-- Substring test on character lists: `pat` occurs somewhere inside `l`.
Models Python's `pat in s` on strings. -/
def containsL (pat : List Char) : List Char → Bool
  | [] => isPrefixL pat []
  | c :: cs => isPrefixL pat (c :: cs) || containsL pat cs

/-- Python's substring membership `pat in s`. -/
def containsSub (s pat : String) : Bool :=
  containsL pat.data s.data

/-- Add a URL to a set represented as a duplicate-free list (Python `set.add`). -/
def insertStr (l : List String) (u : String) : List String :=
  if u ∈ l then l else l ++ [u]

/-- Lookup in the URL-keyed page cache (the scraper's one-file-per-URL store). -/
def lookupStr : List (String × String) → String → Option String
  | [], _ => none
  | (k, v) :: rest, u => if k = u then some v else lookupStr rest u

/-- Overwrite-or-add a page cache entry (Python rewrites the cache file). -/
def insertCache : List (String × String) → String → String → List (String × String)
  | [], u, h => [(u, h)]
  | (k, v) :: rest, u, h => if k = u then (u, h) :: rest else (k, v) :: insertCache rest u h

/-- Lookup of the per-URL network-attempt counter used to index the network oracle. -/
def lookupNat : List (String × Nat) → String → Nat
  | [], _ => 0
  | (k, n) :: rest, u => if k = u then n else lookupNat rest u

/-- Increment the per-URL network-attempt counter. -/
def bumpReq : List (String × Nat) → String → List (String × Nat)
  | [], u => [(u, 1)]
  | (k, n) :: rest, u => if k = u then (k, n + 1) :: rest else (k, n) :: bumpReq rest u

/-- An `<a href=...>` element as produced by BeautifulSoup's
`find_all('a', href=True)`: the `href` attribute and the stripped text. -/
structure Anchor where
  href : String
  text : String
deriving Repr, DecidableEq

/-- A candidate child link produced by the Link Extractor
(`find_regulation_links` / `parse_main_page`): display text, absolute target
URL and coarse inferred type. -/
structure LinkCandidate where
  title : String
  url : String
  ltype : String
deriving Repr, DecidableEq

/-- A scraped page record as built by `scrape_regulation_content` and appended
to `all_regulations`. -/
structure RegulationRecord where
  url : String
  title : String
  content : String
  cleaned_content : String
  url_type : String
deriving Repr, DecidableEq

/-- Observable external effects of a run: one HTTP GET issued to a URL, or a
`time.sleep` of the given number of milliseconds. -/
inductive Event where
  | netReq (url : String)
  | sleep (ms : Nat)
deriving Repr, DecidableEq

/-- The external world: the network (result of the `n`-th HTTP GET issued for a
URL, `none` meaning a `requests.RequestException` / non-2xx status), whether a
cache file write succeeds for a URL, BeautifulSoup anchor parsing, `urljoin`,
and the Content Extractor collaborator (title / content / cleaning heuristics),
all opaque pure functions per the spec's component boundaries. -/
structure World where
  net : String → Nat → Option String
  cacheWriteOk : String → Bool
  parse : String → List Anchor
  urljoin : String → String → String
  extractTitle : String → String
  extractContent : String → String
  cleanText : String → String

/-- The scraper's mutable state: visited and failed URL sets, the in-memory
result list, the on-disk page cache, the per-URL count of network requests
already issued (used to index `World.net`), and the persisted progress files
(`progress.json` as `savedVisited`/`savedTotal`, `failed_urls.json` as
`savedFailed`; `none` means the file does not exist). -/
structure ScraperState where
  visited_urls : List String
  failed_urls : List String
  all_regulations : List RegulationRecord
  cache : List (String × String)
  reqCount : List (String × Nat)
  savedVisited : Option (List String)
  savedTotal : Nat
  savedFailed : Option (List String)
deriving Repr, DecidableEq

/-- The scraper's fixed base URL. -/
def base_url : String := "https://www.law.cornell.edu/regulations/new-york"

/-- A state with nothing visited, nothing failed, nothing scraped, an empty
cache and no progress files — a freshly constructed scraper. -/
def emptyState : ScraperState :=
  { visited_urls := [], failed_urls := [], all_regulations := [], cache := [],
    reqCount := [], savedVisited := none, savedTotal := 0, savedFailed := none }

/-- `load_progress`: restore the visited set from `progress.json` and the
failed set from `failed_urls.json` when those files exist. -/
def load_progress (pv : Option (List String)) (pf : Option (List String))
    (st : ScraperState) : ScraperState :=
  let st1 := match pv with
    | some v => { st with visited_urls := v }
    | none => st
  match pf with
  | some f => { st1 with failed_urls := f }
  | none => st1

/-- `save_progress`: write the visited list and scraped count to
`progress.json`, and — only when the failed set is non-empty — the failed list
to `failed_urls.json`. -/
def save_progress (st : ScraperState) : ScraperState :=
  let st1 := { st with savedVisited := some st.visited_urls,
                       savedTotal := st.all_regulations.length }
  if st.failed_urls = [] then st1
  else { st1 with savedFailed := some st.failed_urls }

/-- The retry loop of `get_page` (`for attempt in range(max_retries)`): the
list argument holds the remaining attempt indices.  A successful GET writes the
page to the cache (best effort, governed by `cacheWriteOk`) and returns it; a
failure on a non-final attempt sleeps `2 ** attempt` seconds and continues; a
failure on the final attempt adds the URL to the failed set and returns
`none`. -/
def fetchGo (w : World) (url : String) : List Nat → ScraperState → ScraperState × Option String × List Event
  | [], st => (st, none, [])
  | attempt :: restAttempts, st =>
    let n := lookupNat st.reqCount url
    let st1 := { st with reqCount := bumpReq st.reqCount url }
    match w.net url n with
    | some html =>
      let st2 := if w.cacheWriteOk url
        then { st1 with cache := insertCache st1.cache url html }
        else st1
      (st2, some html, [Event.netReq url])
    | none =>
      match restAttempts with
      | [] =>
        ({ st1 with failed_urls := insertStr st1.failed_urls url }, none, [Event.netReq url])
      | a2 :: rest2 =>
        let r := fetchGo w url (a2 :: rest2) st1
        (r.1, r.2.1, Event.netReq url :: Event.sleep (1000 * 2 ^ attempt) :: r.2.2)

/-- `get_page`: serve the page from the cache when a readable cache entry
exists (cache files that exist but fail to parse are modelled as absent, since
the code falls through to a re-fetch in that case); otherwise fetch with the
retry budget. -/
def get_page (w : World) (st : ScraperState) (url : String) (max_retries : Nat) :
    ScraperState × Option String × List Event :=
  match lookupStr st.cache url with
  | some html => (st, some html, [])
  | none => fetchGo w url (List.range max_retries) st

/-- `classify_url`: ordered first-match-wins classification of a URL. -/
def classify_url (url : String) : String :=
  if containsSub url "/title-" then "title"
  else if containsSub url "-NYCRR-" then "regulation"
  else if containsSub url "/chapter-" then "chapter"
  else if containsSub url "/part-" then "part"
  else if containsSub url "/section-" then "section"
  else if containsSub url "/app-" || containsSub url "/appendix" then "appendix"
  else "unknown"

/-- The record built by `scrape_regulation_content` for a fetched page; title,
content and cleaning come from the Content Extractor collaborator. -/
def build_record (w : World) (url : String) (html : String) : RegulationRecord :=
  { url := url, title := w.extractTitle html, content := w.extractContent html,
    cleaned_content := w.cleanText (w.extractContent html),
    url_type := classify_url url }

/-- `scrape_regulation_content`: fetch the page (through the cache) and build a
`RegulationRecord`, or return `none` when the fetch failed or returned a falsy
(empty) page — Python's `if not html: return None`. -/
def scrape_regulation_content (w : World) (st : ScraperState) (url : String) :
    ScraperState × Option RegulationRecord × List Event :=
  let r := get_page w st url 3
  let rcd := match r.2.1 with
    | none => none
    | some html => if html = "" then none else some (build_record w url html)
  (r.1, rcd, r.2.2)

/-- Link-type classification inlined in `find_regulation_links`: ordered
first-match-wins over the `href` attribute, default `unknown`.  Chapter, part
and section links all classify as `subsection` here. -/
def linkType (href : String) : String :=
  if containsSub href "/title-" then "title"
  else if containsSub href "-NYCRR-" then "regulation"
  else if containsSub href "/chapter-" || containsSub href "/part-" || containsSub href "/section-"
    then "subsection"
  else if containsSub href "/app-" || containsSub href "/appendix" then "appendix"
  else "unknown"

/-- The skip filter of `find_regulation_links`: drop anchors whose `href`
contains a fragment, `mailto:`, `javascript:` or an off-site `www.` prefix —
unless the `href` mentions `cornell.edu`. -/
def shouldSkip (href : String) : Bool :=
  (containsSub href "#" || containsSub href "mailto:" || containsSub href "javascript:" ||
   containsSub href "http://www." || containsSub href "https://www.") &&
  !(containsSub href "cornell.edu")

/-- `find_regulation_links`: filter the page's anchors, resolve each `href`
against the page URL, keep only on-site regulation links with non-empty text
that are not already visited, and classify each one. -/
def find_regulation_links (w : World) (visited : List String) (anchors : List Anchor)
    (base : String) : List LinkCandidate :=
  anchors.filterMap fun a =>
    if a.href = "" then none
    else if shouldSkip a.href then none
    else if !(containsSub (w.urljoin base a.href) "law.cornell.edu/regulations/new-york")
      then none
    else if w.urljoin base a.href ∈ visited then none
    else if a.text = "" then none
    else some { title := a.text, url := w.urljoin base a.href, ltype := linkType a.href }

/-- `parse_main_page`: fetch the root page and collect its unvisited
title-section links. -/
def parse_main_page (w : World) (st : ScraperState) :
    ScraperState × List LinkCandidate × List Event :=
  let r := get_page w st base_url 3
  match r.2.1 with
  | none => (r.1, [], r.2.2)
  | some html =>
    if html = "" then (r.1, [], r.2.2) else
    let links := (w.parse html).filterMap fun a =>
      if a.href = "" then none
      else if containsSub a.href "/regulations/new-york/title-" then
        let full_url := w.urljoin base_url a.href
        if a.text = "" then none
        else if full_url ∈ r.1.visited_urls then none
        else some { title := a.text, url := full_url, ltype := "title" }
      else none
    (r.1, links, r.2.2)

/-- The child URLs enqueued after a page's HTML was obtained: extracted links,
filtered once more against the visited and failed sets, in page order. -/
def enqueue_links (w : World) (st : ScraperState) (url : String) (html : String) :
    List String :=
  ((find_regulation_links w st.visited_urls (w.parse html) url).filter
    (fun l => decide (¬ l.url ∈ st.visited_urls) && decide (¬ l.url ∈ st.failed_urls))).map
    (fun l => l.url)

/-- One iteration body of the `crawl_recursively` loop for a not-yet-known URL:
mark it visited, scrape it (appending a record on success), fetch the page a
second time for link discovery, compute the URLs to enqueue, and sleep 0.5 s.
Returns the new state, the URLs to append at the back of the queue, whether a
record was scraped, and the event trace. -/
def crawl_iter (w : World) (url : String) (st : ScraperState) :
    ScraperState × List String × Bool × List Event :=
  let st1 := { st with visited_urls := insertStr st.visited_urls url }
  let s := scrape_regulation_content w st1 url
  let st3 := match s.2.1 with
    | some rcd => { s.1 with all_regulations := s.1.all_regulations ++ [rcd] }
    | none => s.1
  let g := get_page w st3 url 3
  let newUrls := match g.2.1 with
    | some html => if html = "" then [] else enqueue_links w g.1 url html
    | none => []
  (g.1, newUrls, (s.2.1).isSome, s.2.2 ++ g.2.2 ++ [Event.sleep 500])

/-- Has the optional page cap been reached (`scraped_count < max_pages` fails)? -/
def capReached : Option Nat → Nat → Bool
  | none, _ => false
  | some m, sc => decide (m ≤ sc)

/-- The `while to_visit` loop of `crawl_recursively`, with explicit fuel (the
Python loop terminates because the site is finite; fuel running out returns the
current state, exactly like an emptied queue).  Pops from the front of the
FIFO queue, skips already-known URLs, otherwise runs `crawl_iter`, appends the
new links at the back, and saves progress every 50 scraped pages. -/
def crawl_loop (w : World) (mp : Option Nat) :
    Nat → List String → Nat → ScraperState → ScraperState × List Event
  | 0, _, _, st => (st, [])
  | _ + 1, [], _, st => (st, [])
  | fuel + 1, url :: rest, sc, st =>
    if capReached mp sc then (st, [])
    else if url ∈ st.visited_urls ∨ url ∈ st.failed_urls then
      crawl_loop w mp fuel rest sc st
    else
      let it := crawl_iter w url st
      let sc2 := if it.2.2.1 then sc + 1 else sc
      let st2 := if sc2 % 50 = 0 then save_progress it.1 else it.1
      let r := crawl_loop w mp fuel (rest ++ it.2.1) sc2 st2
      (r.1, it.2.2.2 ++ r.2)

/-- `crawl_recursively`: run the draining loop from the start URLs (the scraped
count starts at the current length of `all_regulations`) and unconditionally
save progress once more when the loop ends. -/
def crawl_recursively (w : World) (start_urls : List String) (mp : Option Nat)
    (fuel : Nat) (st : ScraperState) : ScraperState × List Event :=
  let r := crawl_loop w mp fuel start_urls st.all_regulations.length st
  (save_progress r.1, r.2)

/-- The retry loop of `retry_failed_urls`: each URL of the snapshot gets one
more `scrape_regulation_content` call; a success appends a record and promotes
the URL to visited, a failure puts it back into the failed set; each iteration
ends with a 1 s sleep. -/
def retry_loop (w : World) : List String → ScraperState → ScraperState × List Event
  | [], st => (st, [])
  | url :: rest, st =>
    let r := scrape_regulation_content w st url
    let st2 := match r.2.1 with
      | some rcd =>
        { r.1 with all_regulations := r.1.all_regulations ++ [rcd],
                   visited_urls := insertStr r.1.visited_urls url }
      | none => { r.1 with failed_urls := insertStr r.1.failed_urls url }
    let rr := retry_loop w rest st2
    (rr.1, r.2.2 ++ Event.sleep 1000 :: rr.2)

/-- `retry_failed_urls`: when the failed set is non-empty, snapshot it, clear
it, and retry every URL of the snapshot once. -/
def retry_failed_urls (w : World) (st : ScraperState) : ScraperState × List Event :=
  if st.failed_urls = [] then (st, [])
  else retry_loop w st.failed_urls { st with failed_urls := [] }

/-- The resume branch of `scrape_all`: for every cached page file, rebuild a
regulation record from its URL (served from the cache by `get_page`). -/
def resume_load (w : World) : List (String × String) → ScraperState → ScraperState × List Event
  | [], st => (st, [])
  | entry :: rest, st =>
    let r := scrape_regulation_content w st entry.1
    let st2 := match r.2.1 with
      | some rcd => { r.1 with all_regulations := r.1.all_regulations ++ [rcd] }
      | none => r.1
    let rr := resume_load w rest st2
    (rr.1, r.2.2 ++ rr.2)

/-- `scrape_all`: fresh runs seed the frontier from the main page's title
links (returning early when none are found); resumed runs (non-empty visited
set) rebuild records from the cache and start with an empty frontier.  Either
way the draining crawl runs, and the retry phase runs when URLs failed. -/
def scrape_all (w : World) (mp : Option Nat) (fuel : Nat) (st : ScraperState) :
    ScraperState × List Event :=
  if st.visited_urls = [] then
    let p := parse_main_page w st
    if p.2.1.isEmpty then (p.1, p.2.2)
    else
      let c := crawl_recursively w (p.2.1.map fun l => l.url) mp fuel p.1
      let r := if c.1.failed_urls = [] then (c.1, []) else retry_failed_urls w c.1
      (r.1, p.2.2 ++ c.2 ++ r.2)
  else
    let rl := resume_load w st.cache st
    let c := crawl_recursively w [] mp fuel rl.1
    let r := if c.1.failed_urls = [] then (c.1, []) else retry_failed_urls w c.1
    (r.1, rl.2 ++ c.2 ++ r.2)

/-- Number of network requests issued to a given URL in an event trace. -/
def countNet (u : String) (evs : List Event) : Nat :=
  evs.countP fun e => match e with
    | Event.netReq v => decide (v = u)
    | Event.sleep _ => false

/-- The sleep durations (in milliseconds) of an event trace, in order. -/
def sleeps (evs : List Event) : List Nat :=
  evs.filterMap fun e => match e with
    | Event.sleep n => some n
    | Event.netReq _ => none

/-- Number of records for a given URL in a result list. -/
def countRecs (u : String) (l : List RegulationRecord) : Nat :=
  l.countP fun r => decide (r.url = u)

/-- Number of cache entries keyed by a given URL. -/
def countKeys (u : String) (l : List (String × String)) : Nat :=
  l.countP fun p => decide (p.1 = u)

/-- Membership in the set-insert on duplicate-free lists. -/
theorem mem_insertStr {x u : String} {l : List String} :
    x ∈ insertStr l u ↔ x ∈ l ∨ x = u := by
  unfold insertStr
  split
  · constructor
    · exact fun h => Or.inl h
    · rintro (h | rfl)
      · exact h
      · assumption
  · simp [List.mem_append]

/-- `save_progress` changes only the persisted-file fields, and persists the
current visited list. -/
theorem save_progress_spec (st : ScraperState) :
    (save_progress st).visited_urls = st.visited_urls ∧
    (save_progress st).failed_urls = st.failed_urls ∧
    (save_progress st).all_regulations = st.all_regulations ∧
    (save_progress st).cache = st.cache ∧
    (save_progress st).reqCount = st.reqCount ∧
    (save_progress st).savedVisited = some st.visited_urls := by
  unfold save_progress
  split <;> simp


/-- The fetch loop never changes the visited set. -/
theorem fetchGo_visited (w : World) (url : String) :
    ∀ (l : List Nat) (st : ScraperState),
    ((fetchGo w url l st).1).visited_urls = st.visited_urls := by
  intro l
  induction l with
  | nil => intro st; rfl
  | cons a rest ih =>
    intro st
    unfold fetchGo
    cases hn : w.net url (lookupNat st.reqCount url) with
    | some html => by_cases hw : w.cacheWriteOk url <;> simp [hn, hw]
    | none =>
      cases rest with
      | nil => simp [hn]
      | cons a2 rest2 => simp only [hn]; exact ih _

/-- The fetch loop never changes the result list. -/
theorem fetchGo_regs (w : World) (url : String) :
    ∀ (l : List Nat) (st : ScraperState),
    ((fetchGo w url l st).1).all_regulations = st.all_regulations := by
  intro l
  induction l with
  | nil => intro st; rfl
  | cons a rest ih =>
    intro st
    unfold fetchGo
    cases hn : w.net url (lookupNat st.reqCount url) with
    | some html => by_cases hw : w.cacheWriteOk url <;> simp [hn, hw]
    | none =>
      cases rest with
      | nil => simp [hn]
      | cons a2 rest2 => simp only [hn]; exact ih _

/-- The fetch loop never touches the persisted progress file. -/
theorem fetchGo_savedVisited (w : World) (url : String) :
    ∀ (l : List Nat) (st : ScraperState),
    ((fetchGo w url l st).1).savedVisited = st.savedVisited := by
  intro l
  induction l with
  | nil => intro st; rfl
  | cons a rest ih =>
    intro st
    unfold fetchGo
    cases hn : w.net url (lookupNat st.reqCount url) with
    | some html => by_cases hw : w.cacheWriteOk url <;> simp [hn, hw]
    | none =>
      cases rest with
      | nil => simp [hn]
      | cons a2 rest2 => simp only [hn]; exact ih _

/-- The fetch loop never touches the persisted failed-URLs file. -/
theorem fetchGo_savedFailed (w : World) (url : String) :
    ∀ (l : List Nat) (st : ScraperState),
    ((fetchGo w url l st).1).savedFailed = st.savedFailed := by
  intro l
  induction l with
  | nil => intro st; rfl
  | cons a rest ih =>
    intro st
    unfold fetchGo
    cases hn : w.net url (lookupNat st.reqCount url) with
    | some html => by_cases hw : w.cacheWriteOk url <;> simp [hn, hw]
    | none =>
      cases rest with
      | nil => simp [hn]
      | cons a2 rest2 => simp only [hn]; exact ih _

/-- The fetch loop can add only its own URL to the failed set. -/
theorem fetchGo_failed_mem (w : World) (url : String) :
    ∀ (l : List Nat) (st : ScraperState) (x : String),
    x ∈ ((fetchGo w url l st).1).failed_urls → x ∈ st.failed_urls ∨ x = url := by
  intro l
  induction l with
  | nil => intro st x hx; exact Or.inl hx
  | cons a rest ih =>
    intro st x
    unfold fetchGo
    cases hn : w.net url (lookupNat st.reqCount url) with
    | some html =>
      by_cases hw : w.cacheWriteOk url <;> simp [hn, hw] <;> exact fun hx => Or.inl hx
    | none =>
      cases rest with
      | nil =>
        simp only [hn]
        intro hx
        simpa [mem_insertStr] using hx
      | cons a2 rest2 => simp only [hn]; exact ih _ x

/-- Every event the fetch loop emits is a request to its own URL or a sleep. -/
theorem fetchGo_events (w : World) (url : String) :
    ∀ (l : List Nat) (st : ScraperState) (e : Event),
    e ∈ (fetchGo w url l st).2.2 → e = Event.netReq url ∨ ∃ n, e = Event.sleep n := by
  intro l
  induction l with
  | nil => intro st e he; simp [fetchGo] at he
  | cons a rest ih =>
    intro st e
    unfold fetchGo
    cases hn : w.net url (lookupNat st.reqCount url) with
    | some html =>
      by_cases hw : w.cacheWriteOk url <;> simp [hn, hw] <;>
        exact fun h => Or.inl h
    | none =>
      cases rest with
      | nil =>
        simp only [hn]
        intro he
        simp at he
        exact Or.inl he
      | cons a2 rest2 =>
        simp only [hn]
        intro he
        simp only [List.mem_cons] at he
        rcases he with rfl | rfl | he
        · exact Or.inl rfl
        · exact Or.inr ⟨1000 * 2 ^ a, rfl⟩
        · exact ih _ e he

/-- `get_page` never changes the visited set. -/
theorem get_page_visited (w : World) (st : ScraperState) (url : String) (m : Nat) :
    ((get_page w st url m).1).visited_urls = st.visited_urls := by
  unfold get_page
  cases hc : lookupStr st.cache url with
  | some html => rfl
  | none => exact fetchGo_visited w url _ st

/-- `get_page` never changes the result list. -/
theorem get_page_regs (w : World) (st : ScraperState) (url : String) (m : Nat) :
    ((get_page w st url m).1).all_regulations = st.all_regulations := by
  unfold get_page
  cases hc : lookupStr st.cache url with
  | some html => rfl
  | none => exact fetchGo_regs w url _ st

/-- `get_page` never touches the persisted progress file. -/
theorem get_page_savedVisited (w : World) (st : ScraperState) (url : String) (m : Nat) :
    ((get_page w st url m).1).savedVisited = st.savedVisited := by
  unfold get_page
  cases hc : lookupStr st.cache url with
  | some html => rfl
  | none => exact fetchGo_savedVisited w url _ st

/-- `get_page` never touches the persisted failed-URLs file. -/
theorem get_page_savedFailed (w : World) (st : ScraperState) (url : String) (m : Nat) :
    ((get_page w st url m).1).savedFailed = st.savedFailed := by
  unfold get_page
  cases hc : lookupStr st.cache url with
  | some html => rfl
  | none => exact fetchGo_savedFailed w url _ st

/-- `get_page` can add only its own URL to the failed set. -/
theorem get_page_failed_mem (w : World) (st : ScraperState) (url : String) (m : Nat)
    (x : String) :
    x ∈ ((get_page w st url m).1).failed_urls → x ∈ st.failed_urls ∨ x = url := by
  unfold get_page
  cases hc : lookupStr st.cache url with
  | some html => exact fun hx => Or.inl hx
  | none => exact fetchGo_failed_mem w url _ st x

/-- Every event `get_page` emits is a request to its own URL or a sleep. -/
theorem get_page_events (w : World) (st : ScraperState) (url : String) (m : Nat)
    (e : Event) :
    e ∈ (get_page w st url m).2.2 → e = Event.netReq url ∨ ∃ n, e = Event.sleep n := by
  unfold get_page
  cases hc : lookupStr st.cache url with
  | some html => intro he; simp at he
  | none => exact fetchGo_events w url _ st e

/-- A page served from the cache leaves the state untouched and emits no
events at all. -/
theorem get_page_cache_hit (w : World) (st : ScraperState) (url : String) (m : Nat)
    (html : String) (hc : lookupStr st.cache url = some html) :
    get_page w st url m = (st, some html, []) := by
  unfold get_page
  rw [hc]

/-- `scrape_regulation_content` never changes the visited set. -/
theorem scrape_visited (w : World) (st : ScraperState) (url : String) :
    ((scrape_regulation_content w st url).1).visited_urls = st.visited_urls := by
  unfold scrape_regulation_content
  cases hr : (get_page w st url 3).2.1 <;>
    simp only [hr] <;> exact get_page_visited w st url 3

/-- `scrape_regulation_content` never changes the result list (appending is
done by its callers). -/
theorem scrape_regs (w : World) (st : ScraperState) (url : String) :
    ((scrape_regulation_content w st url).1).all_regulations = st.all_regulations := by
  unfold scrape_regulation_content
  cases hr : (get_page w st url 3).2.1 <;>
    simp only [hr] <;> exact get_page_regs w st url 3

/-- `scrape_regulation_content` never touches the persisted progress file. -/
theorem scrape_savedVisited (w : World) (st : ScraperState) (url : String) :
    ((scrape_regulation_content w st url).1).savedVisited = st.savedVisited := by
  unfold scrape_regulation_content
  cases hr : (get_page w st url 3).2.1 <;>
    simp only [hr] <;> exact get_page_savedVisited w st url 3

/-- `scrape_regulation_content` never touches the persisted failed-URLs file. -/
theorem scrape_savedFailed (w : World) (st : ScraperState) (url : String) :
    ((scrape_regulation_content w st url).1).savedFailed = st.savedFailed := by
  unfold scrape_regulation_content
  cases hr : (get_page w st url 3).2.1 <;>
    simp only [hr] <;> exact get_page_savedFailed w st url 3

/-- `scrape_regulation_content` can add only its own URL to the failed set. -/
theorem scrape_failed_mem (w : World) (st : ScraperState) (url : String) (x : String) :
    x ∈ ((scrape_regulation_content w st url).1).failed_urls →
      x ∈ st.failed_urls ∨ x = url := by
  unfold scrape_regulation_content
  cases hr : (get_page w st url 3).2.1 <;>
    simp only [hr] <;> exact get_page_failed_mem w st url 3 x

/-- Every event `scrape_regulation_content` emits is a request to its own URL
or a sleep. -/
theorem scrape_events (w : World) (st : ScraperState) (url : String) (e : Event) :
    e ∈ (scrape_regulation_content w st url).2.2 →
      e = Event.netReq url ∨ ∃ n, e = Event.sleep n := by
  unfold scrape_regulation_content
  cases hr : (get_page w st url 3).2.1 <;>
    simp only [hr] <;> exact get_page_events w st url 3 e

/-- A record built by `scrape_regulation_content` carries the scraped URL. -/
theorem scrape_record_url (w : World) (st : ScraperState) (url : String)
    (rcd : RegulationRecord)
    (h : (scrape_regulation_content w st url).2.1 = some rcd) : rcd.url = url := by
  have hres : (scrape_regulation_content w st url).2.1 =
      match (get_page w st url 3).2.1 with
      | none => none
      | some html => if html = "" then none else some (build_record w url html) := by
    unfold scrape_regulation_content
    cases hr : (get_page w st url 3).2.1 <;> simp [hr]
  rw [hres] at h
  cases hr : (get_page w st url 3).2.1 with
  | none => rw [hr] at h; simp at h
  | some html =>
    rw [hr] at h
    by_cases hhe : html = ""
    · simp [hhe] at h
    · simp [hhe] at h
      rw [← h]
      rfl

/-- Request counts add over concatenated traces. -/
theorem countNet_append (u : String) (a b : List Event) :
    countNet u (a ++ b) = countNet u a + countNet u b := by
  simp [countNet, List.countP_append]

/-- A trace whose every event is a request to some other URL or a sleep
contains no requests to `u`. -/
theorem countNet_zero_of_other {url u : String} {evs : List Event} (hne : u ≠ url)
    (h : ∀ e ∈ evs, e = Event.netReq url ∨ ∃ n, e = Event.sleep n) :
    countNet u evs = 0 := by
  unfold countNet
  rw [List.countP_eq_zero]
  intro e he
  rcases h e he with rfl | ⟨n, rfl⟩
  · simp
    exact fun hq => hne hq.symm
  · simp

/-- Record counts add over concatenated result lists. -/
theorem countRecs_append (u : String) (a b : List RegulationRecord) :
    countRecs u (a ++ b) = countRecs u a + countRecs u b := by
  simp [countRecs, List.countP_append]

/-- Counting a single record. -/
theorem countRecs_single (u : String) (r : RegulationRecord) :
    countRecs u [r] = if r.url = u then 1 else 0 := by
  simp [countRecs, List.countP_cons]

/-- Counting cache keys in a cons cell. -/
theorem countKeys_cons (u : String) (p : String × String) (l : List (String × String)) :
    countKeys u (p :: l) = countKeys u l + (if p.1 = u then 1 else 0) := by
  simp [countKeys, List.countP_cons]

/-- Scraping a cached URL leaves the state untouched and emits no events; it
returns a record built from the cached page when that page is non-empty
(Python's falsiness check on `html`). -/
theorem scrape_cache_hit (w : World) (st : ScraperState) (url : String) (html : String)
    (hc : lookupStr st.cache url = some html) :
    scrape_regulation_content w st url =
      (st, if html = "" then none else some (build_record w url html), []) := by
  unfold scrape_regulation_content
  rw [get_page_cache_hit w st url 3 html hc]

/-- The retry loop never touches the persisted progress file. -/
theorem retry_loop_savedVisited (w : World) :
    ∀ (l : List String) (st : ScraperState),
    ((retry_loop w l st).1).savedVisited = st.savedVisited := by
  intro l
  induction l with
  | nil => intro st; rfl
  | cons url rest ih =>
    intro st
    unfold retry_loop
    cases hs : (scrape_regulation_content w st url).2.1 with
    | none =>
      simp only [hs]
      rw [ih _]
      simp
      exact scrape_savedVisited w st url
    | some rcd =>
      simp only [hs]
      rw [ih _]
      simp
      exact scrape_savedVisited w st url

/-- The retry loop never touches the persisted failed-URLs file. -/
theorem retry_loop_savedFailed (w : World) :
    ∀ (l : List String) (st : ScraperState),
    ((retry_loop w l st).1).savedFailed = st.savedFailed := by
  intro l
  induction l with
  | nil => intro st; rfl
  | cons url rest ih =>
    intro st
    unfold retry_loop
    cases hs : (scrape_regulation_content w st url).2.1 with
    | none =>
      simp only [hs]
      rw [ih _]
      simp
      exact scrape_savedFailed w st url
    | some rcd =>
      simp only [hs]
      rw [ih _]
      simp
      exact scrape_savedFailed w st url

/-- The retry loop never removes a URL from the visited set. -/
theorem retry_loop_visited_mono (w : World) :
    ∀ (l : List String) (st : ScraperState) (x : String),
    x ∈ st.visited_urls → x ∈ ((retry_loop w l st).1).visited_urls := by
  intro l
  induction l with
  | nil => intro st x hx; exact hx
  | cons url rest ih =>
    intro st x hx
    unfold retry_loop
    cases hs : (scrape_regulation_content w st url).2.1 with
    | none =>
      simp only [hs]
      refine ih _ x ?_
      simp
      rw [scrape_visited]
      exact hx
    | some rcd =>
      simp only [hs]
      refine ih _ x ?_
      simp
      exact mem_insertStr.mpr (Or.inl (by rw [scrape_visited]; exact hx))

/-- Sleeps do not contribute to request counts. -/
theorem countNet_cons_sleep (u : String) (n : Nat) (evs : List Event) :
    countNet u (Event.sleep n :: evs) = countNet u evs := by
  simp [countNet, List.countP_cons]

/-- For a URL not in the retried list, the retry loop issues no requests to
it, adds no records for it, and does not put it into the failed set. -/
theorem retry_loop_notin (w : World) :
    ∀ (l : List String) (st : ScraperState) (u : String), u ∉ l →
    countNet u (retry_loop w l st).2 = 0 ∧
    countRecs u ((retry_loop w l st).1).all_regulations =
      countRecs u st.all_regulations ∧
    (u ∉ st.failed_urls → u ∉ ((retry_loop w l st).1).failed_urls) := by
  intro l
  induction l with
  | nil =>
    intro st u _
    exact ⟨rfl, rfl, fun h => h⟩
  | cons url rest ih =>
    intro st u hu
    have hne : u ≠ url := fun h => hu (by rw [h]; exact List.mem_cons_self url rest)
    have hur : u ∉ rest := fun h => hu (List.mem_cons_of_mem url h)
    unfold retry_loop
    cases hs : (scrape_regulation_content w st url).2.1 with
    | none =>
      simp only [hs]
      obtain ⟨ih1, ih2, ih3⟩ := ih _ u hur
      refine ⟨?_, ?_, ?_⟩
      · rw [countNet_append,
            countNet_zero_of_other hne (fun e he => scrape_events w st url e he),
            countNet_cons_sleep]
        simpa using ih1
      · rw [ih2]
        simp
        rw [scrape_regs]
      · intro hnf
        refine ih3 ?_
        simp
        rw [mem_insertStr]
        rintro (hin | rfl)
        · exact hnf (by rcases scrape_failed_mem w st url u hin with h | h
                        · exact h
                        · exact absurd h hne)
        · exact hne rfl
    | some rcd =>
      simp only [hs]
      obtain ⟨ih1, ih2, ih3⟩ := ih _ u hur
      have hrurl : rcd.url = url := scrape_record_url w st url rcd hs
      refine ⟨?_, ?_, ?_⟩
      · rw [countNet_append,
            countNet_zero_of_other hne (fun e he => scrape_events w st url e he),
            countNet_cons_sleep]
        simpa using ih1
      · rw [ih2]
        simp
        rw [countRecs_append, countRecs_single, hrurl, scrape_regs]
        simp [hne.symm]
      · intro hnf
        refine ih3 ?_
        simp
        intro hin
        rcases scrape_failed_mem w st url u hin with h | h
        · exact hnf h
        · exact hne h

/-- A key present in the cache always has a successful lookup. -/
theorem lookupStr_isSome_of_mem :
    ∀ (cache : List (String × String)) (p : String × String), p ∈ cache →
    ∃ h, lookupStr cache p.1 = some h := by
  intro cache
  induction cache with
  | nil => intro p hp; simp at hp
  | cons q rest ih =>
    intro p hp
    rcases List.mem_cons.mp hp with rfl | hp'
    · exact ⟨p.2, by unfold lookupStr; simp⟩
    · by_cases hq : q.1 = p.1
      · exact ⟨q.2, by unfold lookupStr; simp [hq]⟩
      · obtain ⟨h, hh⟩ := ih p hp'
        exact ⟨h, by unfold lookupStr; simp [hq]; exact hh⟩

/-- The resume branch replays only cached pages: when every listed entry has a
readable cache record, it emits no events, changes nothing but the result
list, and appends at most one record per listed cache entry (none for an
empty cached page), keyed by the entry's URL. -/
theorem resume_load_spec (w : World) :
    ∀ (l : List (String × String)) (st : ScraperState),
    (∀ p ∈ l, ∃ h, lookupStr st.cache p.1 = some h) →
    (resume_load w l st).2 = [] ∧
    ((resume_load w l st).1).visited_urls = st.visited_urls ∧
    ((resume_load w l st).1).failed_urls = st.failed_urls ∧
    ((resume_load w l st).1).cache = st.cache ∧
    ((resume_load w l st).1).savedVisited = st.savedVisited ∧
    ((resume_load w l st).1).savedFailed = st.savedFailed ∧
    (∀ u, countRecs u ((resume_load w l st).1).all_regulations ≤
      countRecs u st.all_regulations + countKeys u l) := by
  intro l
  induction l with
  | nil =>
    intro st _
    exact ⟨rfl, rfl, rfl, rfl, rfl, rfl, fun u => by simp [resume_load, countKeys]⟩
  | cons p rest ih =>
    intro st hl
    obtain ⟨html, hc⟩ := hl p (List.mem_cons_self p rest)
    have hscr := scrape_cache_hit w st p.1 html hc
    unfold resume_load
    rw [hscr]
    by_cases hhe : html = ""
    · obtain ⟨i1, i2, i3, i4, i5, i6, i7⟩ :=
        ih st (fun q hq => hl q (List.mem_cons_of_mem p hq))
      simp only [if_pos hhe]
      refine ⟨by simpa using i1, by simpa using i2, by simpa using i3,
        by simpa using i4, by simpa using i5, by simpa using i6, fun u => ?_⟩
      refine le_trans (by simpa using i7 u) ?_
      rw [countKeys_cons]
      omega
    · simp only [if_neg hhe]
      have hst2 : ∀ q ∈ rest, ∃ h,
          lookupStr ({ st with all_regulations :=
            st.all_regulations ++ [build_record w p.1 html] } : ScraperState).cache q.1 =
            some h :=
        fun q hq => hl q (List.mem_cons_of_mem p hq)
      obtain ⟨i1, i2, i3, i4, i5, i6, i7⟩ := ih _ hst2
      refine ⟨by simpa using i1, by simpa using i2, by simpa using i3,
        by simpa using i4, by simpa using i5, by simpa using i6, fun u => ?_⟩
      refine le_trans (by simpa using i7 u) ?_
      rw [countRecs_append, countRecs_single, countKeys_cons]
      have hurl : (build_record w p.1 html).url = p.1 := rfl
      rw [hurl]
      omega

/-- The draining loop on an empty frontier does nothing. -/
theorem crawl_loop_nil (w : World) (mp : Option Nat) :
    ∀ (fuel sc : Nat) (st : ScraperState), crawl_loop w mp fuel [] sc st = (st, []) := by
  intro fuel sc st
  cases fuel <;> rfl

/-- One crawl iteration adds exactly its URL to the visited set. -/
theorem crawl_iter_visited (w : World) (url : String) (st : ScraperState) :
    ((crawl_iter w url st).1).visited_urls = insertStr st.visited_urls url := by
  unfold crawl_iter
  cases hs : (scrape_regulation_content w
      { st with visited_urls := insertStr st.visited_urls url } url).2.1 with
  | none =>
    simp only [hs]
    rw [get_page_visited, scrape_visited]
  | some rcd =>
    simp only [hs]
    rw [get_page_visited]
    simp
    rw [scrape_visited]

/-- The draining loop never removes a URL from the visited set. -/
theorem crawl_loop_visited_mono (w : World) (mp : Option Nat) :
    ∀ (fuel : Nat) (queue : List String) (sc : Nat) (st : ScraperState) (x : String),
    x ∈ st.visited_urls → x ∈ ((crawl_loop w mp fuel queue sc st).1).visited_urls := by
  intro fuel
  induction fuel with
  | zero => intro queue sc st x hx; exact hx
  | succ fuel ih =>
    intro queue sc st x hx
    cases queue with
    | nil => rw [crawl_loop_nil]; exact hx
    | cons url rest =>
      unfold crawl_loop
      split
      · exact hx
      · split
        · exact ih rest sc st x hx
        · refine ih _ _ _ x ?_
          split <;> split <;>
            first
              | (rw [(save_progress_spec _).1, crawl_iter_visited]
                 exact mem_insertStr.mpr (Or.inl hx))
              | (rw [crawl_iter_visited]
                 exact mem_insertStr.mpr (Or.inl hx))

/-- Three attempts against an always-failing URL: three requests, backoff
sleeps of 1 s and 2 s between them, the URL enters the failed set, and the
cache is untouched. -/
theorem fetchGo3_allfail (w : World) (u : String) (st : ScraperState)
    (hnet : ∀ n, w.net u n = none) :
    fetchGo w u [0, 1, 2] st =
      ({ st with reqCount := bumpReq (bumpReq (bumpReq st.reqCount u) u) u,
                 failed_urls := insertStr st.failed_urls u }, none,
       [Event.netReq u, Event.sleep 1000, Event.netReq u, Event.sleep 2000,
        Event.netReq u]) := by
  unfold fetchGo
  simp only [hnet]
  unfold fetchGo
  simp only [hnet]
  unfold fetchGo
  simp [hnet]

/-- `get_page` on an uncached always-failing URL: the three-attempt failure. -/
theorem get_page_allfail (w : World) (u : String) (st : ScraperState)
    (hnet : ∀ n, w.net u n = none) (hc : lookupStr st.cache u = none) :
    get_page w st u 3 =
      ({ st with reqCount := bumpReq (bumpReq (bumpReq st.reqCount u) u) u,
                 failed_urls := insertStr st.failed_urls u }, none,
       [Event.netReq u, Event.sleep 1000, Event.netReq u, Event.sleep 2000,
        Event.netReq u]) := by
  unfold get_page
  rw [hc]
  have h3 : List.range 3 = [0, 1, 2] := rfl
  rw [h3]
  exact fetchGo3_allfail w u st hnet

/-- `scrape_regulation_content` on an uncached always-failing URL produces no
record. -/
theorem scrape_allfail (w : World) (u : String) (st : ScraperState)
    (hnet : ∀ n, w.net u n = none) (hc : lookupStr st.cache u = none) :
    scrape_regulation_content w st u =
      ({ st with reqCount := bumpReq (bumpReq (bumpReq st.reqCount u) u) u,
                 failed_urls := insertStr st.failed_urls u }, none,
       [Event.netReq u, Event.sleep 1000, Event.netReq u, Event.sleep 2000,
        Event.netReq u]) := by
  unfold scrape_regulation_content
  rw [get_page_allfail w u st hnet hc]


theorem insertStr_idem (l : List String) (u : String) :
    insertStr (insertStr l u) u = insertStr l u := by
  unfold insertStr
  by_cases hu : u ∈ l
  · simp [hu]
  · simp [hu]

theorem crawl_iter_allfail (w : World) (u : String) (st : ScraperState)
    (hnet : ∀ n, w.net u n = none) (hc : lookupStr st.cache u = none) :
    crawl_iter w u st =
      ({ st with visited_urls := insertStr st.visited_urls u,
                 failed_urls := insertStr st.failed_urls u,
                 reqCount := bumpReq (bumpReq (bumpReq (bumpReq (bumpReq (bumpReq
                   st.reqCount u) u) u) u) u) u }, [], false,
       [Event.netReq u, Event.sleep 1000, Event.netReq u, Event.sleep 2000,
        Event.netReq u, Event.netReq u, Event.sleep 1000, Event.netReq u,
        Event.sleep 2000, Event.netReq u, Event.sleep 500]) := by
  simp only [crawl_iter]
  rw [scrape_allfail w u _ hnet (by simpa using hc)]
  rw [get_page_allfail w u _ hnet (by simpa using hc)]
  simp [insertStr_idem]

theorem ite_save_fields (c : Prop) [Decidable c] (s : ScraperState) :
    (if c then save_progress s else s).visited_urls = s.visited_urls ∧
    (if c then save_progress s else s).failed_urls = s.failed_urls ∧
    (if c then save_progress s else s).all_regulations = s.all_regulations ∧
    (if c then save_progress s else s).cache = s.cache := by
  split
  · exact ⟨(save_progress_spec s).1, (save_progress_spec s).2.1,
      (save_progress_spec s).2.2.1, (save_progress_spec s).2.2.2.1⟩
  · exact ⟨rfl, rfl, rfl, rfl⟩

theorem crawl_allfail_char (w : World) (u : String) (st : ScraperState) (fuel : Nat)
    (hnet : ∀ n, w.net u n = none) (hc : lookupStr st.cache u = none)
    (hv : u ∉ st.visited_urls) (hf : u ∉ st.failed_urls) :
    (crawl_recursively w [u] none (fuel + 1) st).2 =
      [Event.netReq u, Event.sleep 1000, Event.netReq u, Event.sleep 2000,
       Event.netReq u, Event.netReq u, Event.sleep 1000, Event.netReq u,
       Event.sleep 2000, Event.netReq u, Event.sleep 500] ∧
    ((crawl_recursively w [u] none (fuel + 1) st).1).failed_urls =
      insertStr st.failed_urls u ∧
    ((crawl_recursively w [u] none (fuel + 1) st).1).all_regulations =
      st.all_regulations ∧
    ((crawl_recursively w [u] none (fuel + 1) st).1).cache = st.cache ∧
    ((crawl_recursively w [u] none (fuel + 1) st).1).visited_urls =
      insertStr st.visited_urls u := by
  unfold crawl_recursively
  unfold crawl_loop
  rw [if_neg (by simp [capReached] : ¬(capReached none st.all_regulations.length = true))]
  rw [if_neg (by tauto : ¬(u ∈ st.visited_urls ∨ u ∈ st.failed_urls))]
  rw [crawl_iter_allfail w u st hnet hc]
  simp only [crawl_loop_nil, List.append_nil, Bool.false_eq_true, if_false]
  refine ⟨by trivial, ?_, ?_, ?_, ?_⟩
  · rw [(save_progress_spec _).2.1, (ite_save_fields _ _).2.1]
  · rw [(save_progress_spec _).2.2.1, (ite_save_fields _ _).2.2.1]
  · rw [(save_progress_spec _).2.2.2.1, (ite_save_fields _ _).2.2.2]
  · rw [(save_progress_spec _).1, (ite_save_fields _ _).1]

/-- Retrying a failed set holding exactly one uncached always-failing URL:
three more requests, and the URL ends up failed again. -/
theorem retry_allfail_char (w : World) (u : String) (st : ScraperState)
    (hnet : ∀ n, w.net u n = none) (hc : lookupStr st.cache u = none)
    (hfe : st.failed_urls = [u]) :
    countNet u (retry_failed_urls w st).2 = 3 ∧
    u ∈ ((retry_failed_urls w st).1).failed_urls := by
  unfold retry_failed_urls
  rw [if_neg (by simp [hfe])]
  rw [hfe]
  unfold retry_loop
  rw [scrape_allfail w u _ hnet (by simpa using hc)]
  simp only [retry_loop]
  simp [countNet, List.countP_cons, List.countP_append, mem_insertStr]

/-- C1 (amended): in a drain of an uncached URL whose every fetch errors, the
URL is attempted 6 times, then 3 more times in the retry phase, and stays
failed. -/
theorem claim1_retry_budget (w : World) (u : String) (st : ScraperState) (fuel : Nat)
    (hnet : ∀ n, w.net u n = none) (hc : lookupStr st.cache u = none)
    (hv : u ∉ st.visited_urls) (hfe : st.failed_urls = []) :
    countNet u (crawl_recursively w [u] none (fuel + 1) st).2 = 6 ∧
    u ∈ ((crawl_recursively w [u] none (fuel + 1) st).1).failed_urls ∧
    countNet u (retry_failed_urls w (crawl_recursively w [u] none (fuel + 1) st).1).2 = 3 ∧
    u ∈ ((retry_failed_urls w (crawl_recursively w [u] none (fuel + 1) st).1).1).failed_urls := by
  have hf : u ∉ st.failed_urls := by rw [hfe]; simp
  obtain ⟨he, hfail, hregs, hcache, hvis⟩ := crawl_allfail_char w u st fuel hnet hc hv hf
  have hfail' : ((crawl_recursively w [u] none (fuel + 1) st).1).failed_urls = [u] := by
    rw [hfail, hfe]
    simp [insertStr]
  have hc' : lookupStr ((crawl_recursively w [u] none (fuel + 1) st).1).cache u = none := by
    rw [hcache]
    exact hc
  obtain ⟨h3, hmem⟩ := retry_allfail_char w u _ hnet hc' hfail'
  refine ⟨?_, ?_, h3, hmem⟩
  · rw [he]
    simp [countNet, List.countP_cons]
  · rw [hfail]
    simp [mem_insertStr]

/-- A world in which every network request errors and all collaborator
functions are trivial. -/
def w_allfail : World :=
  { net := fun _ _ => none, cacheWriteOk := fun _ => true, parse := fun _ => [],
    urljoin := fun _ h => h, extractTitle := fun h => h, extractContent := fun h => h,
    cleanText := fun s => s }

/-- Witness for C1's amended theorem at a concrete always-failing world. -/
theorem claim1_retry_budget_witness :
    countNet "u" (crawl_recursively w_allfail ["u"] none 1 emptyState).2 = 6 ∧
    "u" ∈ ((crawl_recursively w_allfail ["u"] none 1 emptyState).1).failed_urls ∧
    countNet "u" (retry_failed_urls w_allfail
      (crawl_recursively w_allfail ["u"] none 1 emptyState).1).2 = 3 ∧
    "u" ∈ ((retry_failed_urls w_allfail
      (crawl_recursively w_allfail ["u"] none 1 emptyState).1).1).failed_urls :=
  claim1_retry_budget w_allfail "u" emptyState 0 (fun _ => rfl) rfl
    (by simp [emptyState]) rfl

/-- Counterexample to C1 as stated: the draining phase issues 6 requests, not
3, and the retrying phase issues 3, not 1. -/
theorem claim1_counterexample :
    countNet "u" (crawl_recursively w_allfail ["u"] none 1 emptyState).2 ≠ 3 ∧
    countNet "u" (retry_failed_urls w_allfail
      (crawl_recursively w_allfail ["u"] none 1 emptyState).1).2 ≠ 1 := by
  decide

/-- C3: a URL with a readable cache entry is served from the cache: the state
(including the per-URL attempt counters) is unchanged and no network request
and no backoff sleep is emitted. -/
theorem claim3_cache_hit (w : World) (st : ScraperState) (url : String) (m : Nat)
    (html : String) (hc : lookupStr st.cache url = some html) :
    get_page w st url m = (st, some html, []) ∧
    countNet url (get_page w st url m).2.2 = 0 ∧
    sleeps (get_page w st url m).2.2 = [] ∧
    ((get_page w st url m).1).reqCount = st.reqCount := by
  have h : get_page w st url m = (st, some html, []) := by
    unfold get_page
    rw [hc]
  refine ⟨h, ?_, ?_, ?_⟩ <;> rw [h] <;> rfl

/-- Witness for C3 at a concrete one-entry cache. -/
theorem claim3_cache_hit_witness :
    get_page w_allfail { emptyState with cache := [("u", "h")] } "u" 3 =
      ({ emptyState with cache := [("u", "h")] }, some "h", []) ∧
    countNet "u" (get_page w_allfail { emptyState with cache := [("u", "h")] } "u" 3).2.2 = 0 ∧
    sleeps (get_page w_allfail { emptyState with cache := [("u", "h")] } "u" 3).2.2 = [] ∧
    ((get_page w_allfail { emptyState with cache := [("u", "h")] } "u" 3).1).reqCount =
      ({ emptyState with cache := [("u", "h")] } : ScraperState).reqCount :=
  claim3_cache_hit w_allfail { emptyState with cache := [("u", "h")] } "u" 3 "h" (by decide)

/-- C6 (amended): an uncached URL whose three fetch attempts all error emits
backoff sleeps of 1 s and 2 s (the final failure triggers no backoff, so no
4 s delay occurs), returns nothing, lands in the failed set, and contributes
no record to the aggregate output. -/
theorem claim6_backoff (w : World) (u : String) (st : ScraperState) (fuel : Nat)
    (hnet : ∀ n, w.net u n = none) (hc : lookupStr st.cache u = none)
    (hv : u ∉ st.visited_urls) (hf : u ∉ st.failed_urls) :
    sleeps (get_page w st u 3).2.2 = [1000, 2000] ∧
    (get_page w st u 3).2.1 = none ∧
    u ∈ ((get_page w st u 3).1).failed_urls ∧
    ((crawl_recursively w [u] none (fuel + 1) st).1).all_regulations =
      st.all_regulations ∧
    u ∈ ((crawl_recursively w [u] none (fuel + 1) st).1).failed_urls := by
  obtain ⟨he, hfail, hregs, hcache, hvis⟩ := crawl_allfail_char w u st fuel hnet hc hv hf
  rw [get_page_allfail w u st hnet hc]
  refine ⟨by simp [sleeps], rfl, by simp [mem_insertStr], hregs, ?_⟩
  rw [hfail]
  simp [mem_insertStr]

/-- Witness for C6's amended theorem at a concrete always-failing world. -/
theorem claim6_backoff_witness :
    sleeps (get_page w_allfail emptyState "u" 3).2.2 = [1000, 2000] ∧
    (get_page w_allfail emptyState "u" 3).2.1 = none ∧
    "u" ∈ ((get_page w_allfail emptyState "u" 3).1).failed_urls ∧
    ((crawl_recursively w_allfail ["u"] none 1 emptyState).1).all_regulations =
      emptyState.all_regulations ∧
    "u" ∈ ((crawl_recursively w_allfail ["u"] none 1 emptyState).1).failed_urls :=
  claim6_backoff w_allfail "u" emptyState 0 (fun _ => rfl) rfl (by simp [emptyState]) (by simp [emptyState])

/-- Counterexample to C6 as stated: the backoff delays between the three
attempts are 1 s and 2 s only — there is no 4 s delay. -/
theorem claim6_counterexample :
    sleeps (get_page w_allfail emptyState "u" 3).2.2 = [1000, 2000] ∧
    sleeps (get_page w_allfail emptyState "u" 3).2.2 ≠ [1000, 2000, 4000] := by
  decide

/-- C9: when the cache write fails after a successful fetch, `get_page` still
returns the fetched page and the cache is left unchanged. -/
theorem claim9_cache_write_failure (w : World) (st : ScraperState) (url : String)
    (html : String) (hc : lookupStr st.cache url = none)
    (hw : w.cacheWriteOk url = false)
    (hn : w.net url (lookupNat st.reqCount url) = some html) :
    (get_page w st url 3).2.1 = some html ∧
    ((get_page w st url 3).1).cache = st.cache := by
  unfold get_page
  rw [hc]
  have h3 : List.range 3 = [0, 1, 2] := rfl
  rw [h3]
  unfold fetchGo
  simp [hn, hw]

/-- A world in which every fetch succeeds but every cache write fails. -/
def w_writefail : World :=
  { net := fun _ _ => some "h", cacheWriteOk := fun _ => false, parse := fun _ => [],
    urljoin := fun _ h => h, extractTitle := fun h => h, extractContent := fun h => h,
    cleanText := fun s => s }

/-- Witness for C9 at a concrete write-failing world. -/
theorem claim9_cache_write_failure_witness :
    (get_page w_writefail emptyState "u" 3).2.1 = some "h" ∧
    ((get_page w_writefail emptyState "u" 3).1).cache = emptyState.cache :=
  claim9_cache_write_failure w_writefail emptyState "u" "h" rfl rfl rfl

/-- C7: URL classification is first-match-wins with default `unknown`: a URL
containing the title pattern classifies as `title`; one containing the NYCRR
pattern but no earlier pattern classifies as `regulation`; one containing none
of the patterns classifies as `unknown` — both for `classify_url` and for the
link-type classification of `find_regulation_links`. -/
theorem claim7_classify (url : String) :
    (containsSub url "/title-" = true →
      classify_url url = "title" ∧ linkType url = "title") ∧
    (containsSub url "-NYCRR-" = true ∧ containsSub url "/title-" = false →
      classify_url url = "regulation" ∧ linkType url = "regulation") ∧
    (containsSub url "/title-" = false ∧ containsSub url "-NYCRR-" = false ∧
     containsSub url "/chapter-" = false ∧ containsSub url "/part-" = false ∧
     containsSub url "/section-" = false ∧ containsSub url "/app-" = false ∧
     containsSub url "/appendix" = false →
      classify_url url = "unknown" ∧ linkType url = "unknown") := by
  refine ⟨fun h => ?_, fun h => ?_, fun h => ?_⟩
  · constructor <;> simp [classify_url, linkType, h]
  · obtain ⟨h1, h2⟩ := h
    constructor <;> simp [classify_url, linkType, h1, h2]
  · obtain ⟨h1, h2, h3, h4, h5, h6, h7⟩ := h
    constructor <;> simp [classify_url, linkType, h1, h2, h3, h4, h5, h6, h7]

/-- Witness for C7 at three concrete URLs. -/
theorem claim7_classify_witness :
    classify_url "https://www.law.cornell.edu/regulations/new-york/title-10" = "title" ∧
    classify_url "https://www.law.cornell.edu/regulations/new-york/10-NYCRR-2.1" = "regulation" ∧
    classify_url "https://www.law.cornell.edu/regulations/new-york" = "unknown" :=
  ⟨((claim7_classify "https://www.law.cornell.edu/regulations/new-york/title-10").1
      (by decide)).1,
   ((claim7_classify "https://www.law.cornell.edu/regulations/new-york/10-NYCRR-2.1").2.1
      ⟨by decide, by decide⟩).1,
   ((claim7_classify "https://www.law.cornell.edu/regulations/new-york").2.2
      ⟨by decide, by decide, by decide, by decide, by decide, by decide, by decide⟩).1⟩

/-- The inline link-type classification can only produce one of five values. -/
theorem linkType_mem_types (href : String) :
    linkType href ∈ ["title", "regulation", "subsection", "appendix", "unknown"] := by
  unfold linkType
  split_ifs <;> simp

/-- C8 (amended): every link candidate produced by `find_regulation_links` has
an inferred type in {title, regulation, subsection, appendix, unknown} — the
code collapses chapter, part and section links into the single type
`subsection`. -/
theorem claim8_link_types (w : World) (visited : List String) (anchors : List Anchor)
    (base : String) (l : LinkCandidate)
    (hl : l ∈ find_regulation_links w visited anchors base) :
    l.ltype ∈ ["title", "regulation", "subsection", "appendix", "unknown"] := by
  unfold find_regulation_links at hl
  rw [List.mem_filterMap] at hl
  obtain ⟨a, _, ha⟩ := hl
  split at ha
  · exact absurd ha (by simp)
  · split at ha
    · exact absurd ha (by simp)
    · split at ha
      · exact absurd ha (by simp)
      · split at ha
        · exact absurd ha (by simp)
        · split at ha
          · exact absurd ha (by simp)
          · rw [Option.some_inj] at ha
            rw [← ha]
            exact linkType_mem_types a.href

/-- An anchor whose path has a chapter segment, as found on a regulation page. -/
def anchorC : Anchor :=
  { href := "https://www.law.cornell.edu/regulations/new-york/chapter-1", text := "Ch 1" }

/-- Witness for C8's amended theorem at a concrete chapter-link anchor. -/
theorem claim8_link_types_witness :
    (LinkCandidate.mk "Ch 1"
      "https://www.law.cornell.edu/regulations/new-york/chapter-1" "subsection").ltype ∈
      ["title", "regulation", "subsection", "appendix", "unknown"] :=
  claim8_link_types w_allfail [] [anchorC] base_url _ (by decide)

/-- Counterexample to C8 as stated: a chapter link is classified `subsection`,
which is not in the claimed set {title, regulation, chapter, part, section,
appendix, unknown}. -/
theorem claim8_counterexample :
    (find_regulation_links w_allfail [] [anchorC] base_url).map
      (fun l => l.ltype) = ["subsection"] ∧
    "subsection" ∉ ["title", "regulation", "chapter", "part", "section",
      "appendix", "unknown"] := by
  decide

/-- C10: the visited set is monotone — neither the draining crawl nor the
retry phase ever removes a URL from it. -/
theorem claim10_visited_monotone (w : World) (s : List String) (mp : Option Nat)
    (fuel : Nat) (st : ScraperState) (u : String) (hu : u ∈ st.visited_urls) :
    u ∈ ((crawl_recursively w s mp fuel st).1).visited_urls ∧
    u ∈ ((retry_failed_urls w st).1).visited_urls := by
  constructor
  · unfold crawl_recursively
    rw [(save_progress_spec _).1]
    exact crawl_loop_visited_mono w mp fuel s _ st u hu
  · unfold retry_failed_urls
    split
    · exact hu
    · exact retry_loop_visited_mono w _ _ u hu

/-- Witness for C10 at a concrete state with one visited URL. -/
theorem claim10_visited_monotone_witness :
    "u" ∈ ((crawl_recursively w_allfail ["v"] none 1
      { emptyState with visited_urls := ["u"] }).1).visited_urls ∧
    "u" ∈ ((retry_failed_urls w_allfail
      { emptyState with visited_urls := ["u"] }).1).visited_urls :=
  claim10_visited_monotone w_allfail ["v"] none 1
    { emptyState with visited_urls := ["u"] } "u" (by decide)

/-- C5 (amended): `crawl_recursively` unconditionally writes a final
checkpoint whose visited list equals the visited set at the end of the
draining phase; but `retry_failed_urls` writes no checkpoint at all, so URLs
promoted to visited during the retrying phase are absent from the persisted
state. -/
theorem claim5_final_checkpoint (w : World) (s : List String) (mp : Option Nat)
    (fuel : Nat) (st : ScraperState) :
    ((crawl_recursively w s mp fuel st).1).savedVisited =
      some (((crawl_recursively w s mp fuel st).1).visited_urls) ∧
    ((retry_failed_urls w st).1).savedVisited = st.savedVisited := by
  constructor
  · unfold crawl_recursively
    rw [(save_progress_spec _).2.2.2.2.2, (save_progress_spec _).1]
  · unfold retry_failed_urls
    split
    · rfl
    · exact retry_loop_savedVisited w _ _

/-- A resumed state with one previously visited URL, one failed URL and that
failed URL's page in the cache. -/
def stC5 : ScraperState :=
  load_progress (some ["v"]) (some ["u"]) { emptyState with cache := [("u", "h")] }

/-- Counterexample to C5 as stated: after `scrape_all`, the URL promoted to
visited by the retry phase is in the final visited set but not in the
persisted checkpoint. -/
theorem claim5_counterexample :
    "u" ∈ ((scrape_all w_allfail none 1 stC5).1).visited_urls ∧
    ((scrape_all w_allfail none 1 stC5).1).savedVisited = some ["v"] ∧
    "u" ∉ (["v"] : List String) := by
  decide

/-- One crawl iteration of a not-yet-known URL cached with a non-empty page:
the URL is marked visited, a record built from the cached page is appended,
and the surviving extracted links are returned for enqueueing; the politeness
sleep is the only event. -/
theorem crawl_iter_cached (w : World) (url : String) (st : ScraperState) (html : String)
    (hc : lookupStr st.cache url = some html) (hhe : html ≠ "") :
    crawl_iter w url st =
      ({ st with visited_urls := insertStr st.visited_urls url,
                 all_regulations := st.all_regulations ++ [build_record w url html] },
       enqueue_links w
         { st with visited_urls := insertStr st.visited_urls url,
                   all_regulations := st.all_regulations ++ [build_record w url html] }
         url html,
       true, [Event.sleep 500]) := by
  simp only [crawl_iter]
  rw [scrape_cache_hit w _ url html (by simpa using hc)]
  rw [if_neg hhe]
  rw [get_page_cache_hit w _ url 3 html (by simpa using hc)]
  simp [hhe]

/-- Bumping a URL's request counter increments its lookup by one. -/
theorem lookupNat_bumpReq : ∀ (m : List (String × Nat)) (u : String),
    lookupNat (bumpReq m u) u = lookupNat m u + 1 := by
  intro m u
  induction m with
  | nil => simp [bumpReq, lookupNat]
  | cons q rest ih =>
    obtain ⟨k, n⟩ := q
    unfold bumpReq
    by_cases hk : k = u
    · simp [lookupNat, hk]
    · simp [lookupNat, hk]
      exact ih

/-- Three attempts that all error at the current attempt indices: same
behaviour as the always-failing case, stated per index. -/
theorem fetchGo3_fail3 (w : World) (u : String) (st : ScraperState)
    (h0 : w.net u (lookupNat st.reqCount u) = none)
    (h1 : w.net u (lookupNat st.reqCount u + 1) = none)
    (h2 : w.net u (lookupNat st.reqCount u + 2) = none) :
    fetchGo w u [0, 1, 2] st =
      ({ st with reqCount := bumpReq (bumpReq (bumpReq st.reqCount u) u) u,
                 failed_urls := insertStr st.failed_urls u }, none,
       [Event.netReq u, Event.sleep 1000, Event.netReq u, Event.sleep 2000,
        Event.netReq u]) := by
  have h1' : w.net u (lookupNat (bumpReq st.reqCount u) u) = none := by
    rw [lookupNat_bumpReq]
    exact h1
  have h2' : w.net u (lookupNat (bumpReq (bumpReq st.reqCount u) u) u) = none := by
    rw [lookupNat_bumpReq, lookupNat_bumpReq]
    exact h2
  unfold fetchGo
  simp only [h0]
  unfold fetchGo
  simp only [h1']
  unfold fetchGo
  simp [h2']

/-- `get_page` on an uncached URL whose next three attempts error. -/
theorem get_page_fail3 (w : World) (u : String) (st : ScraperState)
    (h0 : w.net u (lookupNat st.reqCount u) = none)
    (h1 : w.net u (lookupNat st.reqCount u + 1) = none)
    (h2 : w.net u (lookupNat st.reqCount u + 2) = none)
    (hc : lookupStr st.cache u = none) :
    get_page w st u 3 =
      ({ st with reqCount := bumpReq (bumpReq (bumpReq st.reqCount u) u) u,
                 failed_urls := insertStr st.failed_urls u }, none,
       [Event.netReq u, Event.sleep 1000, Event.netReq u, Event.sleep 2000,
        Event.netReq u]) := by
  unfold get_page
  rw [hc]
  have h3 : List.range 3 = [0, 1, 2] := rfl
  rw [h3]
  exact fetchGo3_fail3 w u st h0 h1 h2

/-- `scrape_regulation_content` on an uncached URL whose next three attempts
error produces no record. -/
theorem scrape_fail3 (w : World) (u : String) (st : ScraperState)
    (h0 : w.net u (lookupNat st.reqCount u) = none)
    (h1 : w.net u (lookupNat st.reqCount u + 1) = none)
    (h2 : w.net u (lookupNat st.reqCount u + 2) = none)
    (hc : lookupStr st.cache u = none) :
    scrape_regulation_content w st u =
      ({ st with reqCount := bumpReq (bumpReq (bumpReq st.reqCount u) u) u,
                 failed_urls := insertStr st.failed_urls u }, none,
       [Event.netReq u, Event.sleep 1000, Event.netReq u, Event.sleep 2000,
        Event.netReq u]) := by
  unfold scrape_regulation_content
  rw [get_page_fail3 w u st h0 h1 h2 hc]

/-- `get_page` on an uncached URL whose next attempt succeeds: one request,
no backoff, and a best-effort cache write. -/
theorem get_page_first_success (w : World) (u : String) (st : ScraperState)
    (html : String) (hc : lookupStr st.cache u = none)
    (hn : w.net u (lookupNat st.reqCount u) = some html) :
    get_page w st u 3 =
      ((if w.cacheWriteOk u
         then { st with reqCount := bumpReq st.reqCount u,
                        cache := insertCache st.cache u html }
         else { st with reqCount := bumpReq st.reqCount u }),
       some html, [Event.netReq u]) := by
  unfold get_page
  rw [hc]
  have h3 : List.range 3 = [0, 1, 2] := rfl
  rw [h3]
  unfold fetchGo
  simp only [hn]

/-- One crawl iteration of an uncached URL whose first three attempts error
and whose fourth attempt returns a non-empty page: the content scrape fails
(no record, URL into failed) but the link-discovery fetch succeeds, so child
links ARE enqueued for this failed URL. -/
theorem crawl_iter_flaky (w : World) (url : String) (st : ScraperState)
    (html : String)
    (h0 : w.net url (lookupNat st.reqCount url) = none)
    (h1 : w.net url (lookupNat st.reqCount url + 1) = none)
    (h2 : w.net url (lookupNat st.reqCount url + 2) = none)
    (h3 : w.net url (lookupNat st.reqCount url + 3) = some html)
    (hhe : html ≠ "") (hc : lookupStr st.cache url = none) :
    (crawl_iter w url st).2.2.1 = false ∧
    ((crawl_iter w url st).1).all_regulations = st.all_regulations ∧
    url ∈ ((crawl_iter w url st).1).failed_urls ∧
    (crawl_iter w url st).2.1 =
      enqueue_links w ((crawl_iter w url st).1) url html := by
  simp only [crawl_iter]
  rw [scrape_fail3 w url { st with visited_urls := insertStr st.visited_urls url }
    (by simpa using h0) (by simpa using h1) (by simpa using h2) (by simpa using hc)]
  rw [get_page_first_success w url _ html (by simpa using hc)
    (by simp only [lookupNat_bumpReq]; simpa using h3)]
  refine ⟨rfl, ?_, ?_, ?_⟩
  · split <;> rfl
  · split <;> simp [mem_insertStr]
  · simp [hhe]

/-- C2 (amended): in a resumed run, a URL restored into the visited set that
is not also in the restored failed set is never fetched again, and the
aggregate output holds at most one record for it (the resume branch rebuilds
one record per cache entry). -/
theorem claim2_no_refetch (w : World) (mp : Option Nat) (fuel : Nat)
    (st : ScraperState) (u : String)
    (hv : u ∈ st.visited_urls) (hf : u ∉ st.failed_urls)
    (hregs : st.all_regulations = [])
    (hkeys : countKeys u st.cache ≤ 1) :
    countNet u (scrape_all w mp fuel st).2 = 0 ∧
    countRecs u ((scrape_all w mp fuel st).1).all_regulations ≤ 1 := by
  have hne : st.visited_urls ≠ [] := List.ne_nil_of_mem hv
  obtain ⟨r1, r2, r3, r4, r5, r6, r7⟩ := resume_load_spec w st.cache st
    (fun p hp => lookupStr_isSome_of_mem st.cache p hp)
  have hcrawl : crawl_recursively w [] mp fuel (resume_load w st.cache st).1 =
      (save_progress (resume_load w st.cache st).1, []) := by
    unfold crawl_recursively
    rw [crawl_loop_nil]
  have hsf : (save_progress (resume_load w st.cache st).1).failed_urls =
      st.failed_urls := by
    rw [(save_progress_spec _).2.1, r3]
  have hsr : countRecs u
      ((save_progress (resume_load w st.cache st).1)).all_regulations ≤ 1 := by
    rw [(save_progress_spec _).2.2.1]
    refine le_trans (r7 u) ?_
    rw [hregs]
    simpa [countRecs] using hkeys
  unfold scrape_all
  rw [if_neg hne]
  simp only [hcrawl]
  split
  · constructor
    · rw [r1]
      rfl
    · exact hsr
  · rename_i hfne
    have hretry := retry_loop_notin w
      (save_progress (resume_load w st.cache st).1).failed_urls
      { save_progress (resume_load w st.cache st).1 with failed_urls := [] } u
      (by rw [hsf]; exact hf)
    unfold retry_failed_urls
    rw [if_neg hfne]
    constructor
    · rw [r1]
      simp only [List.nil_append]
      exact hretry.1
    · rw [hretry.2.1]
      simpa using hsr

/-- A resumed state whose one visited URL is not in the failed set and has one
cache entry. -/
def stC2w : ScraperState :=
  load_progress (some ["u"]) none { emptyState with cache := [("u", "h")] }

/-- Witness for C2's amended theorem at a concrete resumed state. -/
theorem claim2_no_refetch_witness :
    countNet "u" (scrape_all w_allfail none 1 stC2w).2 = 0 ∧
    countRecs "u" ((scrape_all w_allfail none 1 stC2w).1).all_regulations ≤ 1 :=
  claim2_no_refetch w_allfail none 1 stC2w "u" (by decide) (by decide) rfl (by decide)

/-- A resumed state whose URL is restored into both the visited and the failed
set, with its page cached. -/
def stC2 : ScraperState :=
  load_progress (some ["u"]) (some ["u"]) { emptyState with cache := [("u", "h")] }

/-- Counterexample to C2 as stated: a URL restored in both visited and failed
is re-processed by the retry phase, and the aggregate output ends the run with
two records for it. -/
theorem claim2_counterexample :
    "u" ∈ stC2.visited_urls ∧
    ((scrape_all w_allfail none 1 stC2).1).all_regulations.map (fun r => r.url) =
      ["u", "u"] ∧
    countRecs "u" ((scrape_all w_allfail none 1 stC2).1).all_regulations = 2 := by
  decide

/-- C4 (amended): the draining loop is a FIFO traversal that pops the front
URL and skips known URLs with no fetch and no events; otherwise it calls
`get_page` twice — once for content, once for link discovery.  An unknown URL
cached with a non-empty page yields a record and its unseen extracted child
links, which the loop appends at the back of the queue; an unknown URL whose
fetches all fail yields no record and no children and lands in the failed
set; but because the two fetches are separate, a URL whose content fetch
exhausts its budget while the later link-discovery fetch returns a non-empty
page lands in the failed set with no record and still enqueues children, and
a fetch that succeeds with an empty page builds no record and enqueues
nothing. -/
theorem claim4_bfs_step (w : World) (mp : Option Nat) (fuel sc : Nat)
    (url : String) (rest : List String) (st : ScraperState) (html : String)
    (hcap : capReached mp sc = false) :
    ((url ∈ st.visited_urls ∨ url ∈ st.failed_urls) →
      crawl_loop w mp (fuel + 1) (url :: rest) sc st =
        crawl_loop w mp fuel rest sc st) ∧
    (url ∉ st.visited_urls → url ∉ st.failed_urls →
      lookupStr st.cache url = some html → html ≠ "" →
      crawl_iter w url st =
        ({ st with visited_urls := insertStr st.visited_urls url,
                   all_regulations := st.all_regulations ++ [build_record w url html] },
         enqueue_links w
           { st with visited_urls := insertStr st.visited_urls url,
                     all_regulations := st.all_regulations ++ [build_record w url html] }
           url html,
         true, [Event.sleep 500]) ∧
      crawl_loop w mp (fuel + 1) (url :: rest) sc st =
        ((crawl_loop w mp fuel (rest ++ (crawl_iter w url st).2.1)
            (if (crawl_iter w url st).2.2.1 then sc + 1 else sc)
            (if (if (crawl_iter w url st).2.2.1 then sc + 1 else sc) % 50 = 0
              then save_progress (crawl_iter w url st).1
              else (crawl_iter w url st).1)).1,
         (crawl_iter w url st).2.2.2 ++
           (crawl_loop w mp fuel (rest ++ (crawl_iter w url st).2.1)
             (if (crawl_iter w url st).2.2.1 then sc + 1 else sc)
             (if (if (crawl_iter w url st).2.2.1 then sc + 1 else sc) % 50 = 0
               then save_progress (crawl_iter w url st).1
               else (crawl_iter w url st).1)).2)) ∧
    (url ∉ st.visited_urls → url ∉ st.failed_urls →
      (∀ n, w.net url n = none) → lookupStr st.cache url = none →
      (crawl_iter w url st).2.1 = [] ∧
      (crawl_iter w url st).2.2.1 = false ∧
      ((crawl_iter w url st).1).all_regulations = st.all_regulations ∧
      url ∈ ((crawl_iter w url st).1).failed_urls) ∧
    (url ∉ st.visited_urls → url ∉ st.failed_urls →
      w.net url (lookupNat st.reqCount url) = none →
      w.net url (lookupNat st.reqCount url + 1) = none →
      w.net url (lookupNat st.reqCount url + 2) = none →
      w.net url (lookupNat st.reqCount url + 3) = some html → html ≠ "" →
      lookupStr st.cache url = none →
      (crawl_iter w url st).2.2.1 = false ∧
      ((crawl_iter w url st).1).all_regulations = st.all_regulations ∧
      url ∈ ((crawl_iter w url st).1).failed_urls ∧
      (crawl_iter w url st).2.1 =
        enqueue_links w ((crawl_iter w url st).1) url html) := by
  refine ⟨fun hknown => ?_, fun hv hf hc hhe => ?_,
    fun hv hf hnet hc => ?_, fun hv hf h0 h1 h2 h3 hhe hc => ?_⟩
  · conv_lhs => unfold crawl_loop
    rw [if_neg (by simp [hcap]), if_pos hknown]
  · refine ⟨crawl_iter_cached w url st html hc hhe, ?_⟩
    conv_lhs => unfold crawl_loop
    rw [if_neg (by simp [hcap]), if_neg (by tauto)]
  · rw [crawl_iter_allfail w url st hnet hc]
    refine ⟨rfl, rfl, rfl, by simp [mem_insertStr]⟩
  · exact crawl_iter_flaky w url st html h0 h1 h2 h3 hhe hc

/-- A world whose first three requests to any URL error and whose later
requests return a non-empty page holding one chapter link. -/
def w_flaky : World :=
  { net := fun _ n => if n < 3 then none else some "h",
    cacheWriteOk := fun _ => true, parse := fun _ => [anchorC],
    urljoin := fun _ h => h, extractTitle := fun h => h, extractContent := fun h => h,
    cleanText := fun s => s }

/-- Witness for C4's amended theorem at concrete skip, cached-success,
always-fail and fail-then-succeed inputs. -/
theorem claim4_bfs_step_witness :
    crawl_loop w_allfail none 1 ["u"] 0 { emptyState with visited_urls := ["u"] } =
      crawl_loop w_allfail none 0 [] 0 { emptyState with visited_urls := ["u"] } ∧
    crawl_iter w_allfail "u" { emptyState with cache := [("u", "h")] } =
      ({ emptyState with
          visited_urls := ["u"], cache := [("u", "h")],
          all_regulations := [build_record w_allfail "u" "h"] },
       ([] : List String), true, [Event.sleep 500]) ∧
    (crawl_iter w_allfail "u" emptyState).2.1 = [] ∧
    (crawl_iter w_allfail "u" emptyState).2.2.1 = false ∧
    ((crawl_iter w_allfail "u" emptyState).1).all_regulations = [] ∧
    "u" ∈ ((crawl_iter w_allfail "u" emptyState).1).failed_urls ∧
    (crawl_iter w_flaky "u" emptyState).2.2.1 = false ∧
    "u" ∈ ((crawl_iter w_flaky "u" emptyState).1).failed_urls ∧
    (crawl_iter w_flaky "u" emptyState).2.1 =
      enqueue_links w_flaky ((crawl_iter w_flaky "u" emptyState).1) "u" "h" := by
  refine ⟨?_, ?_, ?_, ?_, ?_, ?_, ?_, ?_, ?_⟩
  · exact (claim4_bfs_step w_allfail none 0 0 "u" []
      { emptyState with visited_urls := ["u"] } "h" rfl).1 (Or.inl (by decide))
  · have h := ((claim4_bfs_step w_allfail none 0 0 "u" []
      { emptyState with cache := [("u", "h")] } "h" rfl).2.1
      (by decide) (by decide) (by decide) (by decide)).1
    exact h.trans (by decide)
  · exact ((claim4_bfs_step w_allfail none 0 0 "u" [] emptyState "h" rfl).2.2.1
      (by decide) (by decide) (fun _ => rfl) rfl).1
  · exact ((claim4_bfs_step w_allfail none 0 0 "u" [] emptyState "h" rfl).2.2.1
      (by decide) (by decide) (fun _ => rfl) rfl).2.1
  · exact ((claim4_bfs_step w_allfail none 0 0 "u" [] emptyState "h" rfl).2.2.1
      (by decide) (by decide) (fun _ => rfl) rfl).2.2.1
  · exact ((claim4_bfs_step w_allfail none 0 0 "u" [] emptyState "h" rfl).2.2.1
      (by decide) (by decide) (fun _ => rfl) rfl).2.2.2
  · exact ((claim4_bfs_step w_flaky none 0 0 "u" [] emptyState "h" rfl).2.2.2
      (by decide) (by decide) rfl rfl rfl rfl (by decide) rfl).1
  · exact ((claim4_bfs_step w_flaky none 0 0 "u" [] emptyState "h" rfl).2.2.2
      (by decide) (by decide) rfl rfl rfl rfl (by decide) rfl).2.2.1
  · exact ((claim4_bfs_step w_flaky none 0 0 "u" [] emptyState "h" rfl).2.2.2
      (by decide) (by decide) rfl rfl rfl rfl (by decide) rfl).2.2.2

/-- Counterexample to C4 as stated: a URL whose content fetch exhausted its
budget (it is in the failed set with no record) still enqueues child links,
because the separate link-discovery fetch succeeded; and a fetch that
succeeds with an empty page builds no record and enqueues no children. -/
theorem claim4_counterexample :
    ("u" ∈ ((crawl_iter w_flaky "u" emptyState).1).failed_urls ∧
     (crawl_iter w_flaky "u" emptyState).2.2.1 = false ∧
     (crawl_iter w_flaky "u" emptyState).2.1 ≠ []) ∧
    ((get_page w_allfail { emptyState with cache := [("u", "")] } "u" 3).2.1 =
       some "" ∧
     (crawl_iter w_allfail "u" { emptyState with cache := [("u", "")] }).2.2.1 =
       false ∧
     (crawl_iter w_allfail "u" { emptyState with cache := [("u", "")] }).2.1 = []) := by
  decide
